import Mathlib

/-!
# Verification of the Spedify extraction / normalization pipeline

Shallow embedding of the core extraction, price-canonicalization, merge and
statistics logic of the Spedify scraper (`scraper/ollama_scraper.py` and
`scraper/price_history_extractor.py`), together with theorems settling the
specification claims about it.

Strings are modelled as `List Char`; Python floats are modelled as `ℚ`
(the price values occurring in the pipeline are exact decimals, so `ℚ`
represents them without rounding error).
-/

namespace Spedify

/-! ## Basic string machinery (Python `str` operations used by the source) -/

/-- Python substring test `pat in s` (empty pattern is contained in anything). -/
def containsSub (pat : List Char) : List Char → Bool
  | [] => pat.isEmpty
  | c :: rest => pat.isPrefixOf (c :: rest) || containsSub pat rest

/-- Python `str.lower()` (ASCII case folding, which covers all strings the
source compares; `Char.toLower` fixes every non-letter character). -/
def lowerChars (s : List Char) : List Char := s.map Char.toLower

/-- Fuel-driven worker for `removeOccs`: removes the non-overlapping
occurrences of `pat` from `s`, scanning left to right, exactly like Python
`s.replace(pat, "")`.  The fuel is an upper bound on the length of `s`. -/
def removeOccsF : Nat → List Char → List Char → List Char
  | 0, _, _ => []
  | _ + 1, _, [] => []
  | f + 1, pat, c :: rest =>
    if pat ≠ [] ∧ pat.isPrefixOf (c :: rest) then
      removeOccsF f pat ((c :: rest).drop pat.length)
    else
      c :: removeOccsF f pat rest

/-- Python `s.replace(pat, "")`: delete every non-overlapping occurrence of
`pat` in `s`, scanning left to right. -/
def removeOccs (pat s : List Char) : List Char := removeOccsF s.length pat s

/-- Python `s.strip()`: drop leading and trailing whitespace. -/
def pyStrip (s : List Char) : List Char :=
  (((s.dropWhile Char.isWhitespace).reverse).dropWhile Char.isWhitespace).reverse

/-! ## Decimal parsing and rendering (Python `float(...)` and `f"{n:,}"`) -/

/-- Numeric value of a decimal digit character. -/
def digitVal (c : Char) : Nat := c.toNat - '0'.toNat

/-- Value of a most-significant-first decimal digit string. -/
def parseNatChars (s : List Char) : Nat :=
  s.foldl (fun a c => 10 * a + digitVal c) 0

/-- Unsigned part of Python `float(text)`, modelled from the Python builtin:
an optional integer part, optionally followed by `.` and a fraction part,
with at least one digit overall.  (The exponent / `inf` / `nan` /
underscore forms accepted by Python never arise from price strings and are
modelled as the parser simply not being invoked on them.) -/
def floatCore (s : List Char) : Option ℚ :=
  let intPart := s.takeWhile Char.isDigit
  let rest := s.dropWhile Char.isDigit
  match rest with
  | [] => if intPart.isEmpty then none else some (parseNatChars intPart)
  | '.' :: frac =>
    if frac.all Char.isDigit ∧ ¬(intPart.isEmpty ∧ frac.isEmpty) then
      some ((parseNatChars intPart : ℚ) + (parseNatChars frac : ℚ) / (10 : ℚ) ^ frac.length)
    else none
  | _ => none

/-- Signed decimal form: optional sign, then the unsigned decimal form. -/
def floatSigned (s : List Char) : Option ℚ :=
  match s with
  | [] => none
  | c :: rest =>
    if c = '-' then (floatCore rest).map (fun q => -q)
    else if c = '+' then floatCore rest
    else floatCore (c :: rest)

/-- Python `float(text)`: tolerates surrounding whitespace, then parses an
optionally signed decimal.  Returns `none` where Python raises `ValueError`. -/
def floatOfChars (s : List Char) : Option ℚ := floatSigned (pyStrip s)

/-- Least-significant-first decimal digits of `n` (empty for `0`); the fuel
is an upper bound on `n`. -/
def natDigitsAux : Nat → Nat → List Char
  | 0, _ => []
  | f + 1, n => if n = 0 then [] else Nat.digitChar (n % 10) :: natDigitsAux f (n / 10)

/-- Decimal digit string of `n`, most significant digit first. -/
def natToChars (n : Nat) : List Char :=
  if n = 0 then ['0'] else (natDigitsAux n n).reverse

/-- Insert `','` after every three characters of a least-significant-first
digit list (worker for Python's `{:,}` format). -/
def groupRevF : Nat → List Char → List Char
  | 0, ds => ds
  | f + 1, ds => if ds.length ≤ 3 then ds else ds.take 3 ++ ',' :: groupRevF f (ds.drop 3)

/-- Python `f"{n:,}"` on a natural number: decimal digits with `','` as the
thousands separator. -/
def commaGroup (ds : List Char) : List Char := (groupRevF ds.length ds.reverse).reverse

/-- Python `f"{n:,}"` composed onto `natToChars`. -/
def natToCommaChars (n : Nat) : List Char := commaGroup (natToChars n)

/-- Python `f"₹{n:,}"`: the canonical rupee display string of a natural
number (source line `formatted_price = f"₹{price:,}"`). -/
def formatRupee (n : Nat) : List Char := '₹' :: natToCommaChars n

/-! ## `_parse_price_numeric` (ollama_scraper.py, lines 1070–1081) -/

/-- `_parse_price_numeric(price_str)`: empty input gives `0`; otherwise strip
`'₹'`, `"â¹"`, `','`, `"Rs."`, `"Rs"` in that order (each a Python
`str.replace(..., '')`), strip whitespace, and parse the remainder as a
float; any parse failure gives `0`. -/
def parsePriceChars (s : List Char) : ℚ :=
  if s.isEmpty then 0
  else
    let c1 := removeOccs ['₹'] s
    let c2 := removeOccs ['â', '¹'] c1
    let c3 := removeOccs [','] c2
    let c4 := removeOccs ['R', 's', '.'] c3
    let c5 := removeOccs ['R', 's'] c4
    (floatOfChars (pyStrip c5)).getD 0

/-- String-level wrapper of `parsePriceChars`. -/
def parsePriceNumeric (s : String) : ℚ := parsePriceChars s.data

/-- The spec's description of the same cleaning step: "strip all known
currency markers (symbol, its mis-encoded byte variants, thousands
separators, Rs/Rs. prefixes)".  Stated separately so the source function can
be proved to refine it. -/
def stripCurrencyMarkers (s : List Char) : List Char :=
  removeOccs ['R', 's']
    (removeOccs ['R', 's', '.']
      (removeOccs [',']
        (removeOccs ['â', '¹']
          (removeOccs ['₹'] s))))

/-- The ten decimal digit characters (used to classify rendered digits). -/
def digitList : List Char := ['0', '1', '2', '3', '4', '5', '6', '7', '8', '9']


/-! ## `_is_relevant_product` (ollama_scraper.py, lines 2643–2731) -/

/-- Python substring test on `String`s. -/
def strContains (s pat : String) : Bool := containsSub pat.data s.data

/-- Python `str.lower()` on `String`s. -/
def lowerStr (s : String) : String := ⟨lowerChars s.data⟩

/-- `sum(1 for keyword in kws if keyword in s)`. -/
def countContains (s : String) (kws : List String) : Nat :=
  (kws.filter (fun k => strContains s k)).length

/-- `any(keyword in s for keyword in kws)`. -/
def anyContains (s : String) (kws : List String) : Bool :=
  kws.any (fun k => strContains s k)

/-- The `accessory_keywords` list of `_is_relevant_product`. -/
def accessoryKeywords : List String :=
  ["stand", "holder", "cable", "adapter", "charger", "case", "cover",
   "screen protector", "tempered glass", "skin", "sticker", "mount",
   "bracket", "dock", "hub", "converter", "connector", "sleeve",
   "bag", "pouch", "strap", "belt", "clip", "ring", "grip",
   "cleaner", "wipe", "cloth", "kit", "tool", "screwdriver",
   "mat", "pad", "rest", "cushion", "pillow", "tray",
   "light", "lamp", "fan", "cooler", "cooling pad",
   "mouse pad", "keyboard cover", "webcam cover", "privacy screen"]

/-- The `main_product_queries` dict of `_is_relevant_product`, in its
Python insertion (= iteration) order. -/
def mainProductQueries : List (String × List String) :=
  [("laptop", ["laptop", "notebook", "macbook", "thinkpad", "ideapad", "aspire", "pavilion", "inspiron"]),
   ("phone", ["phone", "iphone", "galaxy", "pixel", "oneplus", "realme", "oppo", "vivo", "mi", "redmi"]),
   ("tablet", ["tablet", "ipad", "galaxy tab", "surface"]),
   ("headphone", ["headphone", "earphone", "earbud", "airpods", "headset"]),
   ("watch", ["watch", "smartwatch", "apple watch", "galaxy watch"]),
   ("camera", ["camera", "dslr", "mirrorless", "gopro", "canon", "nikon", "sony camera"]),
   ("tv", ["tv", "television", "smart tv", "led tv", "oled", "qled"]),
   ("speaker", ["speaker", "bluetooth speaker", "smart speaker", "soundbar"])]

/-- `_is_relevant_product(product_name, query)`: accessory filtering with
category-specific rules, translated clause by clause from the source. -/
def isRelevantProduct (productName query : String) : Bool :=
  let productLower := lowerStr productName
  let queryLower := lowerStr query
  let accessoryScore := countContains productLower accessoryKeywords
  match mainProductQueries.find? (fun p => anyContains queryLower p.2) with
  | some (cat, mainKeywords) =>
    let hasMainKeyword := anyContains productLower mainKeywords
    if cat = "laptop" then
      let laptopTerms := ["laptop", "notebook", "macbook", "book", "ideapad",
        "thinkpad", "pavilion", "inspiron", "aspire", "vivobook", "zenbook", "gaming laptop"]
      let hasLaptopTerm := anyContains productLower laptopTerms
      if accessoryScore ≥ 2 || anyContains productLower
          ["stand", "bag", "sleeve", "cooling pad", "mat", "charger", "cable", "hdmi", "usb"] then
        false
      else hasLaptopTerm
    else if cat = "phone" then
      let phoneTerms := ["phone", "iphone", "galaxy", "pixel", "oneplus", "realme",
        "oppo", "vivo", "mi", "redmi", "nothing phone", "smartphone"]
      let hasPhoneTerm := anyContains productLower phoneTerms
      if accessoryScore ≥ 1 || anyContains productLower
          ["case", "cover", "screen protector", "charger", "adapter"] then
        false
      else if anyContains productLower
          ["tv", "television", "smart tv", "qled", "led tv", "oled", "inch)", "cm (", "display"] then
        false
      else hasPhoneTerm
    else if cat = "headphone" then
      let headphoneTerms := ["headphone", "earphone", "earbud", "airpods",
        "headset", "wireless", "bluetooth", "noise cancelling"]
      let hasHeadphoneTerm := anyContains productLower headphoneTerms
      if anyContains productLower ["stand", "case", "adapter", "cable", "jack"] then
        false
      else hasHeadphoneTerm
    else hasMainKeyword && decide (accessoryScore < 2)
  | none => decide (accessoryScore < 2)


/-! ## Python float formatting (`{:.0f}`, `{:.1f}`, `{:,.0f}`)

Python formats round half to even.  The source's float values are exact
decimals, modelled as `ℚ`, so the rounding is modelled exactly on `ℚ`. -/

/-- Round half to even, as Python `format(x, '.0f')` does on the value. -/
def roundHalfEven (q : ℚ) : ℤ :=
  let f := ⌊q⌋
  if q - f < 1/2 then f
  else if (1 : ℚ)/2 < q - f then f + 1
  else if f % 2 = 0 then f else f + 1

/-- Python `f"{q:.0f}"`. -/
def format0f (q : ℚ) : List Char :=
  let r := roundHalfEven q
  if r < 0 then '-' :: natToChars r.natAbs else natToChars r.natAbs

/-- Python `f"{q:.1f}"`. -/
def format1f (q : ℚ) : List Char :=
  let t := roundHalfEven (q * 10)
  (if t < 0 then ['-'] else []) ++
    natToChars (t.natAbs / 10) ++ '.' :: natToChars (t.natAbs % 10)

/-- Python `f"₹{q:,.0f}"`: round half to even, then comma-group. -/
def rupeeComma0f (q : ℚ) : String :=
  let r := roundHalfEven q
  String.mk ('₹' ::
    (if r < 0 then '-' :: commaGroup (natToChars r.natAbs)
     else commaGroup (natToChars r.natAbs)))

/-! ## Price-comparison entries and ranking
(`_generate_price_comparison_from_search`, ollama_scraper.py lines 1789–1801) -/

/-- One row of a price-comparison table, with the fields the source builds
for each platform (`platform`, `price`, `price_numeric`, `availability`,
`url`, `price_difference`). -/
structure CompEntry where
  platform : String
  price : String
  priceNumeric : ℚ
  availability : String
  url : String
  priceDifference : String
deriving DecidableEq, Repr

/-- Lines 1790–1801 of `_generate_price_comparison_from_search`: sort the
entries ascending by `price_numeric` (Python `list.sort`, stable), take the
first entry's numeric price as the lowest, and annotate every entry with
`"Best Price"` (price not above the lowest) or `f"{diff:.0f}% Higher"`. -/
def labelComparison (entries : List CompEntry) : List CompEntry :=
  let sorted := List.insertionSort (fun a b => a.priceNumeric ≤ b.priceNumeric) entries
  match sorted.head? with
  | none => sorted
  | some first =>
    let lowest := first.priceNumeric
    sorted.map fun item =>
      if lowest < item.priceNumeric then
        { item with priceDifference :=
            String.mk (format0f ((item.priceNumeric - lowest) / lowest * 100) ++ "% Higher".data) }
      else { item with priceDifference := "Best Price" }

/-! ## `_merge_price_data` (ollama_scraper.py, lines 975–1001) -/

/-- The lower-cased platform key under which an entry is deduplicated. -/
def lowerKey (p : CompEntry) : String := lowerStr p.platform

/-- First loop of `_merge_price_data`: keep the first entry per lower-cased
platform, threading the `seen_platforms` set; returns the kept entries and
the final seen set. -/
def dedupePrimary : List CompEntry → List String → List CompEntry × List String
  | [], seen => ([], seen)
  | p :: rest, seen =>
    if lowerKey p ∈ seen then dedupePrimary rest seen
    else
      let r := dedupePrimary rest (lowerKey p :: seen)
      (p :: r.1, r.2)

/-- Second loop of `_merge_price_data`: append a secondary entry only when
its lower-cased platform is not yet seen and is non-empty. -/
def addSecondary : List CompEntry → List String → List CompEntry
  | [], _ => []
  | p :: rest, seen =>
    if lowerKey p ∉ seen ∧ lowerKey p ≠ "" then
      p :: addSecondary rest (lowerKey p :: seen)
    else addSecondary rest seen

/-- `_merge_price_data(primary, additional)`. -/
def mergePriceData (primary secondary : List CompEntry) : List CompEntry :=
  (dedupePrimary primary []).1 ++ addSecondary secondary (dedupePrimary primary []).2

/-! ## Search orchestration (`search_products`, `_extract_with_ollama`,
`_create_fallback_products`; ollama_scraper.py lines 291–319, 2036–2072,
3527–3545) -/

/-- One search-result product record (the dict shape produced by the
extractors and by `_create_fallback_products`; the `extracted_at` timestamp
is not modelled). -/
structure SearchProduct where
  id : String
  name : String
  price : String
  platform : String
  url : String
  imageUrl : String
  extractionMethod : String
deriving DecidableEq, Repr

/-- `_create_fallback_products(query)`: the single hard-coded record
returned when extraction fails. -/
def createFallbackProducts (query : String) : List SearchProduct :=
  [{ id := "fallback_1",
     name := query ++ " - AI Extraction Failed (Sample 1)",
     price := "₹25,999",
     platform := "Amazon",
     url := "https://amazon.in/sample",
     imageUrl := "https://example.com/image.jpg",
     extractionMethod := "fallback" }]

/-- `_extract_with_ollama(html, query)`, modelled over the results of its
three strategies (structured-data/JSON, HTML markup, Groq generative batch)
as parameters; the second component records whether the generative fallback
was invoked (the Groq branch runs only when the client is available and
both earlier strategies were empty). -/
def extractWithOllama (jsonProducts htmlProducts : List SearchProduct)
    (groqAvailable : Bool) (groqProducts : List SearchProduct) :
    List SearchProduct × Bool :=
  if jsonProducts ≠ [] then (jsonProducts, false)
  else if htmlProducts ≠ [] then (htmlProducts, false)
  else if groqAvailable then (groqProducts, true)
  else ([], false)

/-- `search_products(query)`: `None` when the page fetch yields no HTML
(`if not html_content`), otherwise the extraction-chain result, replaced by
the hard-coded fallback records when the chain produced nothing.  (The XML
file side effect is not modelled.) -/
def searchProducts (htmlContent : Option String)
    (jsonProducts htmlProducts : List SearchProduct)
    (groqAvailable : Bool) (groqProducts : List SearchProduct)
    (query : String) : Option (List SearchProduct) :=
  match htmlContent with
  | none => none
  | some h =>
    if h = "" then none
    else
      let products := (extractWithOllama jsonProducts htmlProducts groqAvailable groqProducts).1
      if products = [] then some (createFallbackProducts query)
      else some products

/-! ## `_extract_json_data` (ollama_scraper.py, lines 2409–2641)

The regex scan over the fetched document (lines 2421–2447) indexes the
`.prod`, `.link`, `.price`, `.image`, `.siteImage` assignments by variable
name; a variable with both a `.prod` and a `.link` entry is a complete
record.  The embedding starts from that list of complete records
(`VarRecord`, one per matched variable, in iteration order). -/

/-- One complete structured-data record: a variable name that carried both a
product name and a link, with the price / image / siteImage values found
for it (the dict `get` defaults `"0"` / `""` / `""` already applied, as in
lines 2455–2458). -/
structure VarRecord where
  prodName : String
  link : String
  priceStr : String
  siteImage : String
  image : String
deriving DecidableEq, Repr

/-- The tuple built for each complete record at lines 2453–2462: popularity,
active flag and internal product id are the hard-coded constants `"0"`,
`"1"`, `"0"`, not values read from the page. -/
structure MatchData where
  prodName : String
  priceStr : String
  siteImage : String
  link : String
  image : String
  popularityStr : String
  isActiveStr : String
  productId : String
deriving DecidableEq, Repr

/-- Lines 2450–2462: attach the hard-coded popularity/active/id constants. -/
def toMatchData (v : VarRecord) : MatchData :=
  { prodName := v.prodName, priceStr := v.priceStr, siteImage := v.siteImage,
    link := v.link, image := v.image,
    popularityStr := "0", isActiveStr := "1", productId := "0" }

/-- A product record produced by `_extract_json_data` (the URL/image
synthesis fields of lines 2568–2613, which no claim depends on, are not
modelled). -/
structure JsonProduct where
  id : String
  name : String
  price : String
  platform : String
  url : String
  popularity : Nat
  isActive : Nat
  availabilityStatus : String
  availabilityClass : String
deriving DecidableEq, Repr

/-- Python `str.isdigit()` (restricted to ASCII digits, the only digits the
page's price fields contain). -/
def pyIsDigit (s : String) : Bool := ¬s.data.isEmpty && s.data.all Char.isDigit

/-- The lower-cased `site_image + " " + link` text a record is classified
from (line 2479). -/
def siteInfoOf (m : MatchData) : String := lowerStr (m.siteImage ++ " " ++ m.link)

/-- The `if/elif` platform-classification chain of lines 2481–2541. -/
def platformOf (siteInfo : String) : String :=
  if strContains siteInfo "amazon" then "Amazon"
  else if strContains siteInfo "flipkart" then "Flipkart"
  else if strContains siteInfo "myntra" then "Myntra"
  else if strContains siteInfo "tatacliq" || strContains siteInfo "tata_cliq" then "Tatacliq"
  else if strContains siteInfo "ajio" then "Ajio"
  else if strContains siteInfo "nykaa" then "Nykaa"
  else if strContains siteInfo "paytm" then "Paytm"
  else if strContains siteInfo "snapdeal" then "Snapdeal"
  else if strContains siteInfo "shopclues" then "ShopClues"
  else if strContains siteInfo "croma" then "Croma"
  else if strContains siteInfo "reliance" then "Reliance Digital"
  else if strContains siteInfo "vijaysales" then "Vijay Sales"
  else "BuyHatke"

/-- The product record built at lines 2546–2621 for the `i`-th match: price
formatting (`f"₹{price:,}"` when the price string is a positive integer,
`"Price not available"` otherwise), popularity / active-flag parsing with
their defaults, and the availability ladder of lines 2554–2566. -/
def mkJsonProduct (m : MatchData) (i : Nat) : JsonProduct :=
  let price := if pyIsDigit m.priceStr then parseNatChars m.priceStr.data else 0
  let formattedPrice :=
    if price ≠ 0 then String.mk (formatRupee price) else "Price not available"
  let popularity := if pyIsDigit m.popularityStr then parseNatChars m.popularityStr.data else 0
  let isActive := if pyIsDigit m.isActiveStr then parseNatChars m.isActiveStr.data else 1
  let avail :=
    if isActive = 0 then ("Out of Stock", "out-of-stock")
    else if price = 0 then ("Price Not Available", "price-unavailable")
    else if popularity < 10 then ("Limited Stock", "limited-stock")
    else ("Available", "available")
  { id := "json_product_" ++ String.mk (natToChars (i + 1)),
    name := String.mk (pyStrip m.prodName.data),
    price := formattedPrice,
    platform := platformOf (siteInfoOf m),
    url := String.mk (pyStrip m.link.data),
    popularity := popularity,
    isActive := isActive,
    availabilityStatus := avail.1,
    availabilityClass := avail.2 }

/-- The conversion loop of lines 2466–2637.  State: enumerate index `i`,
the `amazon_count` / `flipkart_count` / `others_count` quota counters
(platform quota 25 each, `others_count` shared by every non-Amazon,
non-Flipkart platform), and the accumulated product list (hard cap 60,
checked after each append). -/
def convertLoop (query : String) :
    List MatchData → Nat → Nat → Nat → Nat → List JsonProduct → List JsonProduct
  | [], _, _, _, _, acc => acc
  | m :: rest, i, aC, fC, oC, acc =>
    let platform := platformOf (siteInfoOf m)
    let cnt := if platform = "Amazon" then aC else if platform = "Flipkart" then fC else oC
    if cnt ≥ 25 then
      convertLoop query rest (i + 1) aC fC oC acc
    else
      let aC' := if platform = "Amazon" then aC + 1 else aC
      let fC' := if platform = "Flipkart" then fC + 1 else fC
      let oC' := if platform ≠ "Amazon" ∧ platform ≠ "Flipkart" then oC + 1 else oC
      let product := mkJsonProduct m i
      if isRelevantProduct product.name query ∧ product.name ≠ "" ∧ product.name.length > 5 then
        let acc' := acc ++ [product]
        if acc'.length ≥ 60 then acc'
        else convertLoop query rest (i + 1) aC' fC' oC' acc'
      else
        convertLoop query rest (i + 1) aC' fC' oC' acc

/-- The availability/price shape every record of `_extract_json_data`
actually has (see C10): either a positive canonical rupee price with
`"Limited Stock"`, or no price with `"Price Not Available"`; in particular
never `"Available"` or `"Out of Stock"`. -/
def limitedOrUnavailable (p : JsonProduct) : Prop :=
  (p.availabilityStatus ≠ "Available" ∧ p.availabilityStatus ≠ "Out of Stock") ∧
  ((∃ k : ℕ, 0 < k ∧ p.price = String.mk (formatRupee k) ∧
      p.availabilityStatus = "Limited Stock") ∨
    (p.price = "Price not available" ∧ p.availabilityStatus = "Price Not Available"))

/-- `_extract_json_data`, from the list of complete records onward. -/
def extractJsonData (vars : List VarRecord) (query : String) : List JsonProduct :=
  convertLoop query (vars.map toMatchData) 0 0 0 0 []

/-! ## `calculate_statistics` (price_history_extractor.py, lines 42–97) -/

/-- One price-history point (`price`, `platform`; the timestamp fields are
not modelled). -/
structure HistoryPoint where
  price : String
  platform : String
deriving DecidableEq, Repr

/-- The statistics dict: the drop/increase annotations are optional keys. -/
structure HistoryStats where
  currentPrice : String
  lowestPrice : String
  highestPrice : String
  averagePrice : String
  totalEntries : Nat
  priceDrop : Option String
  priceIncrease : Option String
deriving DecidableEq, Repr

/-- Line 59–61: `entry['price'].replace('₹','').replace(',','')` then
`float(...)`; `none` where Python raises and the entry is skipped. -/
def historyParse (s : String) : Option ℚ :=
  floatOfChars (removeOccs [','] (removeOccs ['₹'] s.data))

/-- `calculate_statistics(price_history)`: `none` models the empty dict
returned for an empty or all-unparsable history. -/
def calculateStatistics (history : List HistoryPoint) : Option HistoryStats :=
  if history.isEmpty then none
  else
    let prices := history.filterMap fun e => historyParse e.price
    match prices with
    | [] => none
    | p :: rest =>
      let current := ((history.getLast?).map (·.price)).getD "N/A"
      let lowest := rest.foldl min p
      let highest := rest.foldl max p
      let average := (p :: rest).sum / (p :: rest).length
      let first := p
      let last := (p :: rest).getLast (by simp)
      some
        { currentPrice := current,
          lowestPrice := rupeeComma0f lowest,
          highestPrice := rupeeComma0f highest,
          averagePrice := rupeeComma0f average,
          totalEntries := history.length,
          priceDrop :=
            if (p :: rest).length > 1 ∧ last < first then
              some (rupeeComma0f (first - last) ++ " (" ++
                String.mk (format1f ((first - last) / first * 100)) ++ "%)")
            else none,
          priceIncrease :=
            if (p :: rest).length > 1 ∧ first < last then
              some (rupeeComma0f (last - first) ++ " (+" ++
                String.mk (format1f ((last - first) / first * 100)) ++ "%)")
            else none }

/-! # Theorems -/

/-! ## Evaluation lemmas for Python `{:.0f}` rounding -/

theorem roundHalfEven_natCast (n : ℕ) : roundHalfEven (n : ℚ) = n := by
  simp [roundHalfEven, Int.floor_natCast]

theorem format0f_145_26 : format0f ((145 : ℚ)/26) = ['6'] := by
  have hr : roundHalfEven ((145 : ℚ)/26) = 6 := by
    simp only [roundHalfEven]
    norm_num
  simp only [format0f, hr]
  decide

theorem format0f_200_13 : format0f ((200 : ℚ)/13) = ['1', '5'] := by
  have hr : roundHalfEven ((200 : ℚ)/13) = 15 := by
    simp only [roundHalfEven]
    norm_num
  simp only [format0f, hr]
  decide

/-! ## C5: comparison ranking -/

/-- C5: for any three comparison entries with numeric prices
`[54900, 52000, 60000]`, the comparison builder sorts them to
`[52000, 54900, 60000]`, labels the `52000` entry `"Best Price"`, and labels
the `60000` entry `"15% Higher"` (the exact rounding of its 15.38% relative
distance from the minimum); the middle entry gets `"6% Higher"`. -/
theorem comparison_ranking (e1 e2 e3 : CompEntry)
    (h1 : e1.priceNumeric = 54900) (h2 : e2.priceNumeric = 52000)
    (h3 : e3.priceNumeric = 60000) :
    (labelComparison [e1, e2, e3]).map CompEntry.priceNumeric = [52000, 54900, 60000] ∧
    (labelComparison [e1, e2, e3]).map CompEntry.priceDifference =
      ["Best Price", "6% Higher", "15% Higher"] := by
  have hsort : List.insertionSort (fun a b => a.priceNumeric ≤ b.priceNumeric) [e1, e2, e3]
      = [e2, e1, e3] := by
    simp only [List.insertionSort, List.orderedInsert, h1, h2, h3]
    norm_num
  rw [labelComparison, hsort]
  simp only [List.head?_cons, List.map_cons, List.map_nil, h1, h2, h3]
  norm_num
  rw [format0f_145_26, format0f_200_13]
  decide

/-- Witness for C5 at concrete entries. -/
theorem comparison_ranking_witness :
    (labelComparison
      [{ platform := "Amazon", price := "₹54,900", priceNumeric := 54900,
         availability := "Available", url := "", priceDifference := "" },
       { platform := "Flipkart", price := "₹52,000", priceNumeric := 52000,
         availability := "Available", url := "", priceDifference := "" },
       { platform := "Croma", price := "₹60,000", priceNumeric := 60000,
         availability := "Available", url := "", priceDifference := "" }]).map
        CompEntry.priceNumeric = [52000, 54900, 60000] ∧
    (labelComparison
      [{ platform := "Amazon", price := "₹54,900", priceNumeric := 54900,
         availability := "Available", url := "", priceDifference := "" },
       { platform := "Flipkart", price := "₹52,000", priceNumeric := 52000,
         availability := "Available", url := "", priceDifference := "" },
       { platform := "Croma", price := "₹60,000", priceNumeric := 60000,
         availability := "Available", url := "", priceDifference := "" }]).map
        CompEntry.priceDifference = ["Best Price", "6% Higher", "15% Higher"] :=
  comparison_ranking _ _ _ rfl rfl rfl

/-! ## Helper lemmas on the string machinery -/

theorem containsSub_append_left (pat s t : List Char) (h : containsSub pat t = true) :
    containsSub pat (s ++ t) = true := by
  induction s with
  | nil => simpa using h
  | cons c cs ih =>
    simp only [List.cons_append, containsSub, Bool.or_eq_true]
    exact Or.inr ih

/-! ## C4: total price parsing -/

/-- C4: `_parse_price_numeric` never fails: for every input string it equals
"strip the currency markers (`₹`, `â¹`, `,`, `Rs.`, `Rs`), strip
whitespace, parse as a float, and fall back to `0` on parse failure"; in
particular empty input and `"Price not available"` give `0`, and the
marker-stripping handles the symbol, its mis-encoded variant and `Rs`
prefixes. -/
theorem parse_price_total (s : String) :
    parsePriceNumeric s = (floatOfChars (pyStrip (stripCurrencyMarkers s.data))).getD 0 ∧
    parsePriceNumeric "" = 0 ∧
    parsePriceNumeric "Price not available" = 0 ∧
    parsePriceNumeric "₹54,900" = 54900 ∧
    parsePriceNumeric "â¹54,900" = 54900 ∧
    parsePriceNumeric "Rs.500" = 500 ∧
    parsePriceNumeric "Rs 500" = 500 := by
  refine ⟨?_, by decide, by decide, by decide, by decide, by decide, by decide⟩
  by_cases h : s.data.isEmpty
  · have hd : s.data = [] := by simpa using h
    simp [parsePriceNumeric, parsePriceChars, hd, stripCurrencyMarkers, removeOccs,
      removeOccsF, pyStrip, floatOfChars, floatSigned]
  · simp only [parsePriceNumeric, parsePriceChars, h, Bool.false_eq_true, if_false,
      stripCurrencyMarkers]

/-- Witness for C4 at a concrete input. -/
theorem parse_price_total_witness :
    parsePriceNumeric "₹7,000" =
      (floatOfChars (pyStrip (stripCurrencyMarkers "₹7,000".data))).getD 0 :=
  (parse_price_total "₹7,000").1

/-! ## C6: relevance filtering -/

/-- C6: for the query `"laptop"`, `_is_relevant_product` rejects the
accessory-dominated candidate `"Dell Laptop Cooling Pad"` and accepts
`"Dell Inspiron 15 Laptop"`. -/
theorem relevance_filter_laptop :
    isRelevantProduct "Dell Laptop Cooling Pad" "laptop" = false ∧
    isRelevantProduct "Dell Inspiron 15 Laptop" "laptop" = true := by
  decide

/-! ## C3: fallback chaining -/

/-- C3: whenever the structured-data (JSON) strategy yields zero records and
the markup (HTML) strategy yields a non-empty list, `_extract_with_ollama`
returns exactly the markup records and does not invoke the generative
(Groq) fallback. -/
theorem fallback_chaining (htmlProducts : List SearchProduct) (groqAvailable : Bool)
    (groqProducts : List SearchProduct) (hhtml : htmlProducts ≠ []) :
    extractWithOllama [] htmlProducts groqAvailable groqProducts = (htmlProducts, false) := by
  simp [extractWithOllama, hhtml]

/-- Witness for C3: a concrete page where JSON extraction finds nothing and
HTML extraction finds three records. -/
theorem fallback_chaining_witness :
    extractWithOllama []
      [{ id := "html_product_1", name := "Sony WH-CH520 Headphone", price := "₹4,490",
         platform := "Amazon", url := "https://amazon.in/a", imageUrl := "",
         extractionMethod := "html_parsing" },
       { id := "html_product_2", name := "boAt Rockerz 450 Headphone", price := "₹1,499",
         platform := "Flipkart", url := "https://flipkart.com/b", imageUrl := "",
         extractionMethod := "html_parsing" },
       { id := "html_product_3", name := "JBL Tune 510BT Headphone", price := "₹3,299",
         platform := "Croma", url := "https://croma.com/c", imageUrl := "",
         extractionMethod := "html_parsing" }] true [] =
    ([{ id := "html_product_1", name := "Sony WH-CH520 Headphone", price := "₹4,490",
        platform := "Amazon", url := "https://amazon.in/a", imageUrl := "",
        extractionMethod := "html_parsing" },
      { id := "html_product_2", name := "boAt Rockerz 450 Headphone", price := "₹1,499",
        platform := "Flipkart", url := "https://flipkart.com/b", imageUrl := "",
        extractionMethod := "html_parsing" },
      { id := "html_product_3", name := "JBL Tune 510BT Headphone", price := "₹3,299",
        platform := "Croma", url := "https://croma.com/c", imageUrl := "",
        extractionMethod := "html_parsing" }], false) :=
  fallback_chaining _ true [] (by decide)

/-! ## C1: behaviour of the search path on total extraction failure -/

/-- Counterexample for C1: on a successfully fetched page for which every
extraction strategy yields zero records, `search_products` does not surface
an empty/failure result; it returns the hard-coded fabricated fallback
record (price `₹25,999`, platform `Amazon`) from
`_create_fallback_products`, i.e. placeholder-labeled data on the plain
search path, not only on the comparison-generation path. -/
theorem search_fallback_counterexample :
    searchProducts (some "<html></html>") [] [] false [] "phone" ≠ none ∧
    searchProducts (some "<html></html>") [] [] false [] "phone" ≠ some [] ∧
    searchProducts (some "<html></html>") [] [] false [] "phone" =
      some [{ id := "fallback_1", name := "phone - AI Extraction Failed (Sample 1)",
              price := "₹25,999", platform := "Amazon",
              url := "https://amazon.in/sample",
              imageUrl := "https://example.com/image.jpg",
              extractionMethod := "fallback" }] := by
  refine ⟨by decide, by decide, by decide⟩

/-- C1 (amended): a failed page fetch yields an explicit failure (`None`);
but when the page is fetched and all strategies yield zero records, the
search path returns the single fabricated fallback record, which is at
least explicitly labeled (its name carries the `"AI Extraction Failed
(Sample 1)"` marker and its extraction method is `"fallback"`). -/
theorem search_fallback_amended (jsonP htmlP : List SearchProduct) (ga : Bool)
    (gp : List SearchProduct) (query s : String) (hs : s ≠ "")
    (hempty : (extractWithOllama jsonP htmlP ga gp).1 = []) :
    searchProducts none jsonP htmlP ga gp query = none ∧
    searchProducts (some "") jsonP htmlP ga gp query = none ∧
    searchProducts (some s) jsonP htmlP ga gp query = some (createFallbackProducts query) ∧
    createFallbackProducts query ≠ [] ∧
    ∀ p ∈ createFallbackProducts query,
      p.extractionMethod = "fallback" ∧
      strContains p.name "AI Extraction Failed (Sample 1)" = true := by
  refine ⟨rfl, by simp [searchProducts], ?_, by simp [createFallbackProducts], ?_⟩
  · simp [searchProducts, hs, hempty]
  · intro p hp
    simp only [createFallbackProducts, List.mem_singleton] at hp
    subst hp
    refine ⟨rfl, ?_⟩
    show containsSub _ (query ++ " - AI Extraction Failed (Sample 1)").data = true
    rw [String.data_append]
    exact containsSub_append_left _ _ _ (by decide)

/-- Witness for C1's amended theorem at a concrete fetched page with all
strategies empty. -/
theorem search_fallback_amended_witness :
    searchProducts (some "<p></p>") [] [] true [] "phone" =
      some (createFallbackProducts "phone") :=
  (search_fallback_amended [] [] true [] "phone" "<p></p>" (by decide) (by decide)).2.2.1

/-! ## Digit rendering / parsing lemmas (used for C7 and C9) -/

theorem removeOccsF_head_not_mem (f : Nat) (c : Char) (pt s : List Char)
    (hf : s.length ≤ f) (h : c ∉ s) : removeOccsF f (c :: pt) s = s := by
  induction f generalizing s with
  | zero =>
    have hs : s = [] := List.eq_nil_of_length_eq_zero (Nat.le_zero.mp hf)
    subst hs; rfl
  | succ f ih =>
    cases s with
    | nil => rfl
    | cons d rest =>
      have hr : rest.length ≤ f := by simpa using hf
      rw [removeOccsF, if_neg]
      · rw [ih rest hr fun hc => h (List.mem_cons_of_mem d hc)]
      · rintro ⟨-, hpre⟩
        simp only [List.isPrefixOf, Bool.and_eq_true, beq_iff_eq] at hpre
        exact h (hpre.1 ▸ List.mem_cons_self d rest)

theorem removeOccs_head_not_mem (c : Char) (pt s : List Char) (h : c ∉ s) :
    removeOccs (c :: pt) s = s :=
  removeOccsF_head_not_mem s.length c pt s le_rfl h

theorem removeOccsF_single (f : Nat) (c : Char) (s : List Char) (hf : s.length ≤ f) :
    removeOccsF f [c] s = s.filter (· ≠ c) := by
  induction f generalizing s with
  | zero =>
    have hs : s = [] := List.eq_nil_of_length_eq_zero (Nat.le_zero.mp hf)
    subst hs; rfl
  | succ f ih =>
    cases s with
    | nil => rfl
    | cons d rest =>
      have hr : rest.length ≤ f := by simpa using hf
      by_cases hdc : c = d
      · subst hdc
        rw [removeOccsF, if_pos ⟨by simp, by simp [List.isPrefixOf]⟩]
        simp only [List.length_singleton, List.drop_succ_cons, List.drop_zero]
        rw [ih rest hr, List.filter_cons]
        simp
      · rw [removeOccsF, if_neg]
        · rw [ih rest hr, List.filter_cons]
          simp [Ne.symm hdc]
        · rintro ⟨-, hpre⟩
          simp only [List.isPrefixOf, Bool.and_eq_true, beq_iff_eq] at hpre
          exact hdc hpre.1

theorem removeOccs_single (c : Char) (s : List Char) :
    removeOccs [c] s = s.filter (· ≠ c) :=
  removeOccsF_single s.length c s le_rfl

theorem filter_ne_self_of_not_mem (x : Char) (l : List Char) (h : x ∉ l) :
    l.filter (· ≠ x) = l :=
  List.filter_eq_self.mpr fun a ha => by
    simp only [ne_eq, decide_eq_true_eq]
    rintro rfl
    exact h ha

theorem mem_natDigitsAux (f n : Nat) (c : Char) (h : c ∈ natDigitsAux f n) :
    c ∈ digitList := by
  induction f generalizing n with
  | zero => simp [natDigitsAux] at h
  | succ f ih =>
    rw [natDigitsAux] at h
    by_cases hn : n = 0
    · simp [hn] at h
    · rw [if_neg hn] at h
      rcases List.mem_cons.mp h with rfl | h'
      · have h10 : n % 10 < 10 := Nat.mod_lt _ (by norm_num)
        have hball : ∀ k < 10, Nat.digitChar k ∈ digitList := by decide
        exact hball _ h10
      · exact ih _ h'

theorem mem_natToChars (n : Nat) (c : Char) (h : c ∈ natToChars n) : c ∈ digitList := by
  rw [natToChars] at h
  by_cases hn : n = 0
  · rw [if_pos hn] at h
    simp only [List.mem_singleton] at h
    subst h; decide
  · rw [if_neg hn, List.mem_reverse] at h
    exact mem_natDigitsAux n n c h

theorem natToChars_ne_nil (n : Nat) : natToChars n ≠ [] := by
  rw [natToChars]
  by_cases hn : n = 0
  · simp [hn]
  · rw [if_neg hn]
    obtain ⟨m, rfl⟩ := Nat.exists_eq_succ_of_ne_zero hn
    rw [natDigitsAux, if_neg (Nat.succ_ne_zero m)]
    simp

theorem digitList_isDigit : ∀ c ∈ digitList, c.isDigit = true := by decide

theorem digitList_not_ws : ∀ c ∈ digitList, c.isWhitespace = false := by decide

theorem digitList_excl : ∀ c ∈ digitList, c ∉ ['₹', 'â', ',', 'R', '-', '+'] := by decide

theorem mem_groupRevF (f : Nat) (ds : List Char) (c : Char) (h : c ∈ groupRevF f ds) :
    c ∈ ds ∨ c = ',' := by
  induction f generalizing ds with
  | zero => exact Or.inl h
  | succ f ih =>
    rw [groupRevF] at h
    by_cases hl : ds.length ≤ 3
    · rw [if_pos hl] at h; exact Or.inl h
    · rw [if_neg hl] at h
      rcases List.mem_append.mp h with h1 | h2
      · exact Or.inl (List.take_subset 3 ds h1)
      · rcases List.mem_cons.mp h2 with rfl | h3
        · exact Or.inr rfl
        · rcases ih _ h3 with h4 | h4
          · exact Or.inl (List.drop_subset 3 ds h4)
          · exact Or.inr h4

theorem mem_commaGroup (ds : List Char) (c : Char) (h : c ∈ commaGroup ds) :
    c ∈ ds ∨ c = ',' := by
  rw [commaGroup, List.mem_reverse] at h
  rcases mem_groupRevF _ _ c h with h1 | h1
  · exact Or.inl (List.mem_reverse.mp h1)
  · exact Or.inr h1

theorem filter_groupRevF (f : Nat) (ds : List Char) (h : ',' ∉ ds) :
    (groupRevF f ds).filter (· ≠ ',') = ds := by
  induction f generalizing ds with
  | zero => exact filter_ne_self_of_not_mem ',' ds h
  | succ f ih =>
    rw [groupRevF]
    by_cases hl : ds.length ≤ 3
    · rw [if_pos hl]; exact filter_ne_self_of_not_mem ',' ds h
    · rw [if_neg hl, List.filter_append, List.filter_cons]
      simp only [ne_eq, not_true_eq_false, decide_False, Bool.false_eq_true, if_false]
      rw [filter_ne_self_of_not_mem ',' _ fun hc => h (List.take_subset 3 ds hc),
        ih _ fun hc => h (List.drop_subset 3 ds hc), List.take_append_drop]

theorem filter_commaGroup (ds : List Char) (h : ',' ∉ ds) :
    (commaGroup ds).filter (· ≠ ',') = ds := by
  rw [commaGroup, List.filter_reverse, filter_groupRevF _ _ (by simpa using h),
    List.reverse_reverse]

theorem takeWhile_eq_self_of_all (p : Char → Bool) (l : List Char)
    (h : ∀ c ∈ l, p c = true) : l.takeWhile p = l := by
  induction l with
  | nil => rfl
  | cons c rest ih =>
    rw [List.takeWhile_cons, if_pos (h c (List.mem_cons_self c rest))]
    rw [ih fun d hd => h d (List.mem_cons_of_mem c hd)]

theorem dropWhile_eq_nil_of_all (p : Char → Bool) (l : List Char)
    (h : ∀ c ∈ l, p c = true) : l.dropWhile p = [] := by
  induction l with
  | nil => rfl
  | cons c rest ih =>
    rw [List.dropWhile_cons, if_pos (h c (List.mem_cons_self c rest))]
    exact ih fun d hd => h d (List.mem_cons_of_mem c hd)

theorem dropWhile_eq_self_of_all_not (p : Char → Bool) (l : List Char)
    (h : ∀ c ∈ l, p c = false) : l.dropWhile p = l := by
  cases l with
  | nil => rfl
  | cons c rest =>
    rw [List.dropWhile_cons, if_neg]
    simp [h c (List.mem_cons_self c rest)]

theorem pyStrip_eq_self (l : List Char) (h : ∀ c ∈ l, c.isWhitespace = false) :
    pyStrip l = l := by
  rw [pyStrip, dropWhile_eq_self_of_all_not _ _ h,
    dropWhile_eq_self_of_all_not _ _ fun c hc => h c (List.mem_reverse.mp hc),
    List.reverse_reverse]

theorem natDigitsAux_foldr (f n : Nat) (h : n ≤ f) :
    (natDigitsAux f n).foldr (fun c a => 10 * a + digitVal c) 0 = n := by
  induction f generalizing n with
  | zero =>
    rw [natDigitsAux, List.foldr_nil]
    omega
  | succ f ih =>
    rw [natDigitsAux]
    by_cases hn : n = 0
    · rw [if_pos hn, List.foldr_nil]; omega
    · rw [if_neg hn, List.foldr_cons]
      have hdv : digitVal (Nat.digitChar (n % 10)) = n % 10 := by
        have h10 : n % 10 < 10 := Nat.mod_lt _ (by norm_num)
        have hball : ∀ k < 10, digitVal (Nat.digitChar k) = k := by decide
        exact hball _ h10
      have hdiv : n / 10 < n := Nat.div_lt_self (Nat.pos_of_ne_zero hn) (by norm_num)
      rw [ih (n / 10) (by omega), hdv]
      omega

theorem parseNatChars_natToChars (n : Nat) : parseNatChars (natToChars n) = n := by
  rw [natToChars]
  by_cases hn : n = 0
  · rw [if_pos hn, hn]; decide
  · rw [if_neg hn, parseNatChars, List.foldl_reverse]
    exact natDigitsAux_foldr n n le_rfl

theorem floatCore_digits (l : List Char) (hne : l ≠ []) (h : ∀ c ∈ l, c.isDigit = true) :
    floatCore l = some ((parseNatChars l : ℚ)) := by
  have ht : l.takeWhile Char.isDigit = l := takeWhile_eq_self_of_all _ _ h
  have hd : l.dropWhile Char.isDigit = [] := dropWhile_eq_nil_of_all _ _ h
  cases l with
  | nil => exact absurd rfl hne
  | cons c rest =>
    simp only [floatCore, ht, hd]
    rfl

theorem floatSigned_digits (l : List Char) (hne : l ≠ []) (h : ∀ c ∈ l, c ∈ digitList) :
    floatSigned l = some ((parseNatChars l : ℚ)) := by
  cases l with
  | nil => exact absurd rfl hne
  | cons c rest =>
    have hc := digitList_excl c (h c (List.mem_cons_self c rest))
    have hminus : c ≠ '-' := by rintro rfl; exact hc (by decide)
    have hplus : c ≠ '+' := by rintro rfl; exact hc (by decide)
    rw [floatSigned, if_neg hminus, if_neg hplus]
    exact floatCore_digits _ (by simp) fun d hd => digitList_isDigit d (h d hd)

theorem floatOfChars_digits (l : List Char) (hne : l ≠ []) (h : ∀ c ∈ l, c ∈ digitList) :
    floatOfChars l = some ((parseNatChars l : ℚ)) := by
  rw [floatOfChars, pyStrip_eq_self _ fun c hc => digitList_not_ws c (h c hc)]
  exact floatSigned_digits l hne h

/-! ## C7: rupee display round trip -/

theorem natToCommaChars_mem (n : Nat) (c : Char) (h : c ∈ natToCommaChars n) :
    c ∈ digitList ∨ c = ',' := by
  rcases mem_commaGroup _ c h with h1 | h1
  · exact Or.inl (mem_natToChars n c h1)
  · exact Or.inr h1

theorem parsePriceChars_formatRupee (n : Nat) : parsePriceChars (formatRupee n) = (n : ℚ) := by
  have hG : ∀ c ∈ natToCommaChars n, c ∈ digitList ∨ c = ',' := natToCommaChars_mem n
  have hGnot : ∀ x : Char, x ∉ digitList → x ≠ ',' → x ∉ natToCommaChars n := by
    intro x hx1 hx2 hx
    rcases hG x hx with h1 | h1
    · exact hx1 h1
    · exact hx2 h1
  have hDnot : ∀ x : Char, x ∉ digitList → x ∉ natToChars n := by
    intro x hx1 hx
    exact hx1 (mem_natToChars n x hx)
  have e1 : removeOccs ['₹'] (formatRupee n) = natToCommaChars n := by
    rw [formatRupee, removeOccs_single, List.filter_cons]
    simp only [ne_eq, not_true_eq_false, decide_False, Bool.false_eq_true, if_false]
    exact filter_ne_self_of_not_mem _ _ (hGnot '₹' (by decide) (by decide))
  have e2 : removeOccs ['â', '¹'] (natToCommaChars n) = natToCommaChars n :=
    removeOccs_head_not_mem 'â' _ _ (hGnot 'â' (by decide) (by decide))
  have e3 : removeOccs [','] (natToCommaChars n) = natToChars n := by
    rw [removeOccs_single]
    exact filter_commaGroup _ (hDnot ',' (by decide))
  have e4 : removeOccs ['R', 's', '.'] (natToChars n) = natToChars n :=
    removeOccs_head_not_mem 'R' _ _ (hDnot 'R' (by decide))
  have e5 : removeOccs ['R', 's'] (natToChars n) = natToChars n :=
    removeOccs_head_not_mem 'R' _ _ (hDnot 'R' (by decide))
  have estrip : pyStrip (natToChars n) = natToChars n :=
    pyStrip_eq_self _ fun c hc => digitList_not_ws c (mem_natToChars n c hc)
  have efloat : floatOfChars (natToChars n) = some ((parseNatChars (natToChars n) : ℚ)) :=
    floatOfChars_digits _ (natToChars_ne_nil n) (mem_natToChars n)
  simp only [parsePriceChars, formatRupee, List.isEmpty_cons, Bool.false_eq_true, if_false]
  rw [show ('₹' :: natToCommaChars n) = formatRupee n from rfl, e1, e2, e3, e4, e5, estrip,
    efloat, parseNatChars_natToChars]
  rfl

/-- C7: for every well-formed rupee display string `s = "₹" ++ comma-grouped
integer` (i.e. `s.data = formatRupee n`), parsing yields the integer value
`n`, formatting `n` reproduces `s`, and re-parsing the formatted string
gives the same value as parsing `s`. -/
theorem price_display_roundtrip (s : String) (n : ℕ) (hn : 0 < n)
    (hs : s.data = formatRupee n) :
    parsePriceNumeric s = (n : ℚ) ∧
    String.mk (formatRupee n) = s ∧
    parsePriceNumeric (String.mk (formatRupee n)) = parsePriceNumeric s := by
  have h1 : parsePriceNumeric s = (n : ℚ) := by
    rw [parsePriceNumeric, hs]
    exact parsePriceChars_formatRupee n
  have h2 : String.mk (formatRupee n) = s := by
    cases s with
    | mk data => exact congrArg String.mk hs.symm
  exact ⟨h1, h2, by rw [h2]⟩

/-- Witness for C7 at the spec's own example `"₹54,900"`. -/
theorem price_display_roundtrip_witness :
    parsePriceNumeric "₹54,900" = ((54900 : ℕ) : ℚ) ∧
    String.mk (formatRupee 54900) = "₹54,900" ∧
    parsePriceNumeric (String.mk (formatRupee 54900)) = parsePriceNumeric "₹54,900" :=
  price_display_roundtrip "₹54,900" 54900 (by decide) (by decide)

/-! ## C8: idempotence of `_merge_price_data` -/

theorem addSecondary_idem (B : List CompEntry) (seen : List String) :
    addSecondary (addSecondary B seen) seen = addSecondary B seen := by
  induction B generalizing seen with
  | nil => rfl
  | cons p rest ih =>
    by_cases h : lowerKey p ∉ seen ∧ lowerKey p ≠ ""
    · rw [addSecondary, if_pos h, addSecondary, if_pos h, ih]
    · rw [addSecondary, if_neg h]
      exact ih seen

theorem addSecondary_append_of_seen (d X : List CompEntry) (seen : List String)
    (h : ∀ p ∈ d, lowerKey p ∈ seen) :
    addSecondary (d ++ X) seen = addSecondary X seen := by
  induction d with
  | nil => rfl
  | cons p rest ih =>
    have hp : lowerKey p ∈ seen := h p (by simp)
    rw [List.cons_append, addSecondary, if_neg (by simp [hp])]
    exact ih fun q hq => h q (by simp [hq])

theorem dedupePrimary_seen_mono (l : List CompEntry) (seen : List String) (x : String)
    (hx : x ∈ seen) : x ∈ (dedupePrimary l seen).2 := by
  induction l generalizing seen with
  | nil => simpa [dedupePrimary] using hx
  | cons p rest ih =>
    by_cases h : lowerKey p ∈ seen
    · rw [dedupePrimary, if_pos h]
      exact ih seen hx
    · rw [dedupePrimary, if_neg h]
      exact ih (lowerKey p :: seen) (by simp [hx])

theorem dedupePrimary_kept_seen (l : List CompEntry) (seen : List String) :
    ∀ p ∈ (dedupePrimary l seen).1, lowerKey p ∈ (dedupePrimary l seen).2 := by
  induction l generalizing seen with
  | nil => simp [dedupePrimary]
  | cons p rest ih =>
    by_cases h : lowerKey p ∈ seen
    · rw [dedupePrimary, if_pos h]
      exact ih seen
    · rw [dedupePrimary, if_neg h]
      intro q hq
      rcases List.mem_cons.mp hq with rfl | hq'
      · exact dedupePrimary_seen_mono rest (lowerKey q :: seen) _ (by simp)
      · exact ih (lowerKey p :: seen) q hq'

/-- C8: `_merge_price_data` is idempotent in its claimed sense:
`merge(A, merge(A, B)) = merge(A, B)`. -/
theorem merge_idempotent (A B : List CompEntry) :
    mergePriceData A (mergePriceData A B) = mergePriceData A B := by
  unfold mergePriceData
  rw [addSecondary_append_of_seen _ _ _ (dedupePrimary_kept_seen A []),
    addSecondary_idem]

/-! ## C10: availability statuses of the structured-data extractor -/

theorem mkJsonProduct_platform (m : MatchData) (i : Nat) :
    (mkJsonProduct m i).platform = platformOf (siteInfoOf m) := rfl

theorem mkJsonProduct_name (m : MatchData) (i : Nat) :
    (mkJsonProduct m i).name = String.mk (pyStrip m.prodName.data) := rfl

theorem mkJsonProduct_ok (m : MatchData) (i : Nat) (hpop : m.popularityStr = "0")
    (hact : m.isActiveStr = "1") : limitedOrUnavailable (mkJsonProduct m i) := by
  have hpopv : (if pyIsDigit ("0" : String) then parseNatChars ("0" : String).data else 0) = 0 := by
    decide
  have hactv : (if pyIsDigit ("1" : String) then parseNatChars ("1" : String).data else 1) = 1 := by
    decide
  by_cases hpr : (if pyIsDigit m.priceStr then parseNatChars m.priceStr.data else 0) = 0
  · simp only [limitedOrUnavailable, mkJsonProduct, hpop, hact, hpopv, hactv, hpr]
    norm_num
    exact ⟨by decide, by decide⟩
  · simp only [limitedOrUnavailable, mkJsonProduct, hpop, hact, hpopv, hactv, if_neg hpr]
    norm_num [hpr]
    exact ⟨⟨by decide, by decide⟩, Or.inl ⟨_, Nat.pos_of_ne_zero hpr, rfl⟩⟩

theorem convertLoop_availability (query : String) (ms : List MatchData) :
    ∀ (i aC fC oC : Nat) (acc : List JsonProduct),
    (∀ m ∈ ms, m.popularityStr = "0" ∧ m.isActiveStr = "1") →
    (∀ p ∈ acc, limitedOrUnavailable p) →
    ∀ p ∈ convertLoop query ms i aC fC oC acc, limitedOrUnavailable p := by
  induction ms with
  | nil =>
    intro i aC fC oC acc _ hacc
    simpa [convertLoop] using hacc
  | cons m rest ih =>
    intro i aC fC oC acc hm hacc
    have hmm := hm m (List.mem_cons_self m rest)
    have hrest := fun m' hm' => hm m' (List.mem_cons_of_mem m hm')
    have hprod : limitedOrUnavailable (mkJsonProduct m i) :=
      mkJsonProduct_ok m i hmm.1 hmm.2
    have hacc' : ∀ p ∈ acc ++ [mkJsonProduct m i], limitedOrUnavailable p := by
      intro p hp
      rcases List.mem_append.mp hp with h1 | h1
      · exact hacc p h1
      · rw [List.mem_singleton.mp h1]
        exact hprod
    simp only [convertLoop]
    split_ifs <;>
      first
        | exact hacc'
        | exact ih (i + 1) _ _ _ _ hrest hacc'
        | exact ih (i + 1) _ _ _ _ hrest hacc

/-- C10: every record produced by `_extract_json_data` has availability
`"Limited Stock"` (with a positive canonical rupee price display) or
`"Price Not Available"` (with display `"Price not available"`); the
statuses `"Available"` and `"Out of Stock"` are never produced, because the
popularity and active-flag inputs are the hard-coded constants `"0"` and
`"1"` (see `toMatchData`). -/
theorem structured_availability_shape (vars : List VarRecord) (query : String) :
    ∀ p ∈ extractJsonData vars query, limitedOrUnavailable p := by
  rw [extractJsonData]
  refine convertLoop_availability query (vars.map toMatchData) 0 0 0 0 [] ?_ (by simp)
  intro m hm
  rcases List.mem_map.mp hm with ⟨v, -, rfl⟩
  exact ⟨rfl, rfl⟩

/-- Witness for C10: one concrete structured-data record, extracted with
query `"phone"`, whose produced product satisfies the availability shape. -/
theorem structured_availability_shape_witness :
    (mkJsonProduct (toMatchData
      { prodName := "Apple iPhone 15 Phone", link := "https://amazon.in/x",
        priceStr := "54900", siteImage := "amazon", image := "" }) 0) ∈
      extractJsonData
        [{ prodName := "Apple iPhone 15 Phone", link := "https://amazon.in/x",
           priceStr := "54900", siteImage := "amazon", image := "" }] "phone" ∧
    limitedOrUnavailable (mkJsonProduct (toMatchData
      { prodName := "Apple iPhone 15 Phone", link := "https://amazon.in/x",
        priceStr := "54900", siteImage := "amazon", image := "" }) 0) :=
  ⟨by decide, structured_availability_shape
    [{ prodName := "Apple iPhone 15 Phone", link := "https://amazon.in/x",
       priceStr := "54900", siteImage := "amazon", image := "" }] "phone" _ (by decide)⟩

/-! ## C2: per-platform quota of the structured-data extractor -/

theorem amazon_ne_flipkart : ("Amazon" : String) ≠ "Flipkart" := by decide

theorem flipkart_ne_amazon : ("Flipkart" : String) ≠ "Amazon" := by decide

theorem convertLoop_cons_skip (query : String) (m : MatchData) (rest : List MatchData)
    (i aC fC oC : Nat) (acc : List JsonProduct)
    (h : (if platformOf (siteInfoOf m) = "Amazon" then aC
          else if platformOf (siteInfoOf m) = "Flipkart" then fC else oC) ≥ 25) :
    convertLoop query (m :: rest) i aC fC oC acc =
      convertLoop query rest (i + 1) aC fC oC acc := by
  simp only [convertLoop]
  rw [if_pos h]

theorem convertLoop_cons_go (query : String) (m : MatchData) (rest : List MatchData)
    (i aC fC oC : Nat) (acc : List JsonProduct)
    (h : ¬((if platformOf (siteInfoOf m) = "Amazon" then aC
          else if platformOf (siteInfoOf m) = "Flipkart" then fC else oC) ≥ 25))
    (hpass : isRelevantProduct (mkJsonProduct m i).name query = true ∧
      (mkJsonProduct m i).name ≠ "" ∧ (mkJsonProduct m i).name.length > 5)
    (hlen : ¬((acc ++ [mkJsonProduct m i]).length ≥ 60)) :
    convertLoop query (m :: rest) i aC fC oC acc =
      convertLoop query rest (i + 1)
        (if platformOf (siteInfoOf m) = "Amazon" then aC + 1 else aC)
        (if platformOf (siteInfoOf m) = "Flipkart" then fC + 1 else fC)
        (if platformOf (siteInfoOf m) ≠ "Amazon" ∧ platformOf (siteInfoOf m) ≠ "Flipkart"
          then oC + 1 else oC)
        (acc ++ [mkJsonProduct m i]) := by
  simp only [convertLoop]
  rw [if_neg h, if_pos hpass, if_neg hlen]

theorem convertLoop_quota (query : String) (ms : List MatchData) :
    ∀ (i aC fC oC : Nat) (acc : List JsonProduct),
    (∀ m ∈ ms, platformOf (siteInfoOf m) = "Amazon" ∨
      platformOf (siteInfoOf m) = "Flipkart") →
    (∀ m ∈ ms, isRelevantProduct (String.mk (pyStrip m.prodName.data)) query = true ∧
      String.mk (pyStrip m.prodName.data) ≠ "" ∧
      (String.mk (pyStrip m.prodName.data)).length > 5) →
    fC + (ms.filter fun m => platformOf (siteInfoOf m) = "Flipkart").length ≤ 25 →
    acc.length + (25 - aC) +
      (ms.filter fun m => platformOf (siteInfoOf m) = "Flipkart").length < 60 →
    ((convertLoop query ms i aC fC oC acc).filter fun p => p.platform = "Amazon").length
      ≤ ((acc.filter fun p => p.platform = "Amazon")).length + (25 - aC) ∧
    ((convertLoop query ms i aC fC oC acc).filter fun p => p.platform = "Flipkart").length
      = ((acc.filter fun p => p.platform = "Flipkart")).length +
        (ms.filter fun m => platformOf (siteInfoOf m) = "Flipkart").length := by
  induction ms with
  | nil =>
    intro i aC fC oC acc _ _ _ _
    simp [convertLoop]
  | cons m rest ih =>
    intro i aC fC oC acc hall hpass hfc hlen
    have hallR := fun m' h => hall m' (List.mem_cons_of_mem m h)
    have hpassR := fun m' h => hpass m' (List.mem_cons_of_mem m h)
    have hpassP : isRelevantProduct (mkJsonProduct m i).name query = true ∧
        (mkJsonProduct m i).name ≠ "" ∧ (mkJsonProduct m i).name.length > 5 := by
      rw [mkJsonProduct_name]
      exact hpass m (List.mem_cons_self m rest)
    rcases hall m (List.mem_cons_self m rest) with hA | hF
    · have hfilter : ((m :: rest).filter fun m' => platformOf (siteInfoOf m') = "Flipkart")
          = rest.filter fun m' => platformOf (siteInfoOf m') = "Flipkart" := by
        simp [List.filter_cons, hA, amazon_ne_flipkart]
      rw [hfilter] at hfc hlen ⊢
      by_cases haC : aC ≥ 25
      · rw [convertLoop_cons_skip query m rest i aC fC oC acc (by rw [hA]; simpa using haC)]
        exact ih (i + 1) aC fC oC acc hallR hpassR hfc hlen
      · have haC' : aC < 25 := Nat.not_le.mp haC
        have hlenapp : ¬((acc ++ [mkJsonProduct m i]).length ≥ 60) := by
          simp only [List.length_append, List.length_singleton]
          omega
        rw [convertLoop_cons_go query m rest i aC fC oC acc (by rw [hA]; simpa using haC)
          hpassP hlenapp]
        have e1 : (if platformOf (siteInfoOf m) = "Amazon" then aC + 1 else aC) = aC + 1 := by
          simp [hA]
        have e2 : (if platformOf (siteInfoOf m) = "Flipkart" then fC + 1 else fC) = fC := by
          simp [hA, amazon_ne_flipkart]
        have e3 : (if platformOf (siteInfoOf m) ≠ "Amazon" ∧
            platformOf (siteInfoOf m) ≠ "Flipkart" then oC + 1 else oC) = oC := by
          simp [hA]
        rw [e1, e2, e3]
        have hPA : (mkJsonProduct m i).platform = "Amazon" := by
          rw [mkJsonProduct_platform, hA]
        have hfa : (((acc ++ [mkJsonProduct m i]).filter
              fun p => p.platform = "Amazon")).length
            = ((acc.filter fun p => p.platform = "Amazon")).length + 1 := by
          simp [List.filter_append, hPA]
        have hff : (((acc ++ [mkJsonProduct m i]).filter
              fun p => p.platform = "Flipkart")).length
            = ((acc.filter fun p => p.platform = "Flipkart")).length := by
          simp [List.filter_append, hPA, amazon_ne_flipkart]
        have hq := ih (i + 1) (aC + 1) fC oC (acc ++ [mkJsonProduct m i]) hallR hpassR hfc
          (by simp only [List.length_append, List.length_singleton]; omega)
        rw [hfa, hff] at hq
        obtain ⟨hq1, hq2⟩ := hq
        refine ⟨by omega, by omega⟩
    · have hfilter : ((m :: rest).filter fun m' => platformOf (siteInfoOf m') = "Flipkart")
          = m :: rest.filter fun m' => platformOf (siteInfoOf m') = "Flipkart" := by
        simp [List.filter_cons, hF]
      rw [hfilter] at hfc hlen ⊢
      simp only [List.length_cons] at hfc hlen
      have hfC : fC < 25 := by omega
      have hcnt : ¬((if platformOf (siteInfoOf m) = "Amazon" then aC
          else if platformOf (siteInfoOf m) = "Flipkart" then fC else oC) ≥ 25) := by
        rw [hF]
        simp [flipkart_ne_amazon]
        omega
      have hlenapp : ¬((acc ++ [mkJsonProduct m i]).length ≥ 60) := by
        simp only [List.length_append, List.length_singleton]
        omega
      rw [convertLoop_cons_go query m rest i aC fC oC acc hcnt hpassP hlenapp]
      have e1 : (if platformOf (siteInfoOf m) = "Amazon" then aC + 1 else aC) = aC := by
        simp [hF, flipkart_ne_amazon]
      have e2 : (if platformOf (siteInfoOf m) = "Flipkart" then fC + 1 else fC) = fC + 1 := by
        simp [hF]
      have e3 : (if platformOf (siteInfoOf m) ≠ "Amazon" ∧
          platformOf (siteInfoOf m) ≠ "Flipkart" then oC + 1 else oC) = oC := by
        simp [hF]
      rw [e1, e2, e3]
      have hPF : (mkJsonProduct m i).platform = "Flipkart" := by
        rw [mkJsonProduct_platform, hF]
      have hfa : (((acc ++ [mkJsonProduct m i]).filter
            fun p => p.platform = "Amazon")).length
          = ((acc.filter fun p => p.platform = "Amazon")).length := by
        simp [List.filter_append, hPF, flipkart_ne_amazon]
      have hff : (((acc ++ [mkJsonProduct m i]).filter
            fun p => p.platform = "Flipkart")).length
          = ((acc.filter fun p => p.platform = "Flipkart")).length + 1 := by
        simp [List.filter_append, hPF]
      have hq := ih (i + 1) aC (fC + 1) oC (acc ++ [mkJsonProduct m i]) hallR hpassR
        (by omega)
        (by simp only [List.length_append, List.length_singleton]; omega)
      rw [hfa, hff] at hq
      obtain ⟨hq1, hq2⟩ := hq
      refine ⟨hq1, by simp only [List.length_cons]; omega⟩

/-- C2: for every structured-data input whose complete records are 100
Amazon-classified and 5 Flipkart-classified entries, all of which pass the
relevance/length filter, `_extract_json_data` returns at most 25
Amazon-labeled records and exactly the 5 Flipkart-labeled records. -/
theorem platform_diversity_cap (vars : List VarRecord) (query : String)
    (hA : ((vars.map toMatchData).filter
        fun m => platformOf (siteInfoOf m) = "Amazon").length = 100)
    (hF : ((vars.map toMatchData).filter
        fun m => platformOf (siteInfoOf m) = "Flipkart").length = 5)
    (hall : ∀ m ∈ vars.map toMatchData,
        platformOf (siteInfoOf m) = "Amazon" ∨ platformOf (siteInfoOf m) = "Flipkart")
    (hpass : ∀ m ∈ vars.map toMatchData,
        isRelevantProduct (String.mk (pyStrip m.prodName.data)) query = true ∧
        String.mk (pyStrip m.prodName.data) ≠ "" ∧
        (String.mk (pyStrip m.prodName.data)).length > 5) :
    ((extractJsonData vars query).filter fun p => p.platform = "Amazon").length ≤ 25 ∧
    ((extractJsonData vars query).filter fun p => p.platform = "Flipkart").length = 5 := by
  rw [extractJsonData]
  have hq := convertLoop_quota query (vars.map toMatchData) 0 0 0 0 [] hall hpass
    (by rw [hF]; norm_num) (by rw [hF]; simp)
  rw [hF] at hq
  simpa using hq

set_option maxRecDepth 8000 in
/-- Witness for C2: 100 concrete Amazon-classified records and 5 concrete
Flipkart-classified records, all passing the relevance filter for query
`"phone"`; the extractor keeps at most 25 Amazon records and all 5
Flipkart records. -/
theorem platform_diversity_cap_witness :
    ((extractJsonData
        (List.replicate 100
          ({ prodName := "Apple iPhone 15 Phone", link := "https://amazon.in/x",
             priceStr := "54900", siteImage := "amazon", image := "" } : VarRecord) ++
         List.replicate 5
          ({ prodName := "Apple iPhone 15 Phone Blue", link := "https://flipkart.com/y",
             priceStr := "52000", siteImage := "flipkart", image := "" } : VarRecord))
        "phone").filter fun p => p.platform = "Amazon").length ≤ 25 ∧
    ((extractJsonData
        (List.replicate 100
          ({ prodName := "Apple iPhone 15 Phone", link := "https://amazon.in/x",
             priceStr := "54900", siteImage := "amazon", image := "" } : VarRecord) ++
         List.replicate 5
          ({ prodName := "Apple iPhone 15 Phone Blue", link := "https://flipkart.com/y",
             priceStr := "52000", siteImage := "flipkart", image := "" } : VarRecord))
        "phone").filter fun p => p.platform = "Flipkart").length = 5 :=
  platform_diversity_cap _ "phone" (by decide) (by decide) (by decide) (by decide)

/-! ## C9: single-point history statistics -/

theorem historyParse_formatRupee (n : ℕ) :
    historyParse (String.mk (formatRupee n)) = some ((n : ℚ)) := by
  have hGnot : ∀ x : Char, x ∉ digitList → x ≠ ',' → x ∉ natToCommaChars n := by
    intro x hx1 hx2 hx
    rcases natToCommaChars_mem n x hx with h1 | h1
    · exact hx1 h1
    · exact hx2 h1
  have e1 : removeOccs ['₹'] (formatRupee n) = natToCommaChars n := by
    rw [formatRupee, removeOccs_single, List.filter_cons]
    simp only [ne_eq, not_true_eq_false, decide_False, Bool.false_eq_true, if_false]
    exact filter_ne_self_of_not_mem _ _ (hGnot '₹' (by decide) (by decide))
  have e3 : removeOccs [','] (natToCommaChars n) = natToChars n := by
    rw [removeOccs_single]
    exact filter_commaGroup _
      fun hc => (by decide : (',' : Char) ∉ digitList) (mem_natToChars n ',' hc)
  simp only [historyParse]
  rw [e1, e3, floatOfChars_digits _ (natToChars_ne_nil n) (mem_natToChars n),
    parseNatChars_natToChars]

theorem rupeeComma0f_natCast (n : ℕ) : rupeeComma0f ((n : ℚ)) = String.mk (formatRupee n) := by
  simp only [rupeeComma0f, roundHalfEven_natCast]
  rw [if_neg (by omega), Int.natAbs_ofNat]
  rfl

theorem calculateStatistics_single (s platform : String) (v : ℚ)
    (h : historyParse s = some v) :
    calculateStatistics [{ price := s, platform := platform }] =
      some { currentPrice := s, lowestPrice := rupeeComma0f v,
             highestPrice := rupeeComma0f v, averagePrice := rupeeComma0f v,
             totalEntries := 1, priceDrop := none, priceIncrease := none } := by
  simp only [calculateStatistics, List.isEmpty_cons, Bool.false_eq_true, if_false,
    List.filterMap_cons, List.filterMap_nil, h]
  simp [List.getLast?_singleton, List.getLast_singleton, div_one]

/-- Counterexample for C9: the display string `"54900"` parses to a numeric
value, yet the statistics result does not report all four prices equal to
the point's price: `current_price` echoes the raw display `"54900"` while
`lowest_price`/`highest_price`/`average_price` are re-rendered as
`"₹54,900"`, a different string. -/
theorem history_single_counterexample :
    historyParse "54900" = some ((54900 : ℕ) : ℚ) ∧
    calculateStatistics [{ price := "54900", platform := "Amazon" }] =
      some { currentPrice := "54900", lowestPrice := "₹54,900",
             highestPrice := "₹54,900", averagePrice := "₹54,900",
             totalEntries := 1, priceDrop := none, priceIncrease := none } ∧
    ("₹54,900" : String) ≠ "54900" := by
  refine ⟨by decide, ?_, by decide⟩
  rw [calculateStatistics_single "54900" "Amazon" ((54900 : ℕ) : ℚ) (by decide),
    rupeeComma0f_natCast, show String.mk (formatRupee 54900) = "₹54,900" by decide]

/-- C9 (amended): for a history of exactly one point whose display is the
canonical rupee string of an integer `n` (the only displays the pipeline
itself produces), the statistics report current, lowest, highest and
average all equal to that display, a total of one entry, and neither a
price-drop nor a price-increase field; for non-canonical but parsable
displays the current price echoes the raw display while the other three
are the canonical re-rendering of the same value. -/
theorem history_stats_single_point (s platform : String) (n : ℕ)
    (h : historyParse s = some ((n : ℚ))) :
    calculateStatistics [{ price := s, platform := platform }] =
      some { currentPrice := s,
             lowestPrice := String.mk (formatRupee n),
             highestPrice := String.mk (formatRupee n),
             averagePrice := String.mk (formatRupee n),
             totalEntries := 1, priceDrop := none, priceIncrease := none } ∧
    historyParse (String.mk (formatRupee n)) = some ((n : ℚ)) := by
  refine ⟨?_, historyParse_formatRupee n⟩
  rw [calculateStatistics_single s platform _ h, rupeeComma0f_natCast]

/-- Witness for C9's amended theorem at the canonical single point
`"₹54,900"`: all four reported prices equal the point's own display. -/
theorem history_stats_single_point_witness :
    calculateStatistics [{ price := "₹54,900", platform := "Amazon" }] =
      some { currentPrice := "₹54,900",
             lowestPrice := String.mk (formatRupee 54900),
             highestPrice := String.mk (formatRupee 54900),
             averagePrice := String.mk (formatRupee 54900),
             totalEntries := 1, priceDrop := none, priceIncrease := none } ∧
    historyParse (String.mk (formatRupee 54900)) = some ((54900 : ℕ) : ℚ) :=
  history_stats_single_point "₹54,900" "Amazon" 54900 (by decide)

/-- Witness for C8 at concrete lists with overlapping platforms. -/
theorem merge_idempotent_witness :
    mergePriceData
      [{ platform := "Amazon", price := "₹54,900", priceNumeric := 54900,
         availability := "Available", url := "", priceDifference := "" }]
      (mergePriceData
        [{ platform := "Amazon", price := "₹54,900", priceNumeric := 54900,
           availability := "Available", url := "", priceDifference := "" }]
        [{ platform := "amazon", price := "₹53,000", priceNumeric := 53000,
           availability := "Available", url := "", priceDifference := "" },
         { platform := "Flipkart", price := "₹52,000", priceNumeric := 52000,
           availability := "Available", url := "", priceDifference := "" }]) =
    mergePriceData
      [{ platform := "Amazon", price := "₹54,900", priceNumeric := 54900,
         availability := "Available", url := "", priceDifference := "" }]
      [{ platform := "amazon", price := "₹53,000", priceNumeric := 53000,
         availability := "Available", url := "", priceDifference := "" },
       { platform := "Flipkart", price := "₹52,000", priceNumeric := 52000,
         availability := "Available", url := "", priceDifference := "" }] :=
  merge_idempotent _ _

end Spedify
